import Mathlib

/-!
Shallow embedding of the resilient dual-transport networking core of the
ESP32 greenhouse controller firmware: the network facade with its two
transports (WiFiManager and GPRSManager), the cellular bring-up FSM, the
per-transport asynchronous HTTP request FSMs, the HTTP retry
classification, and the main-loop reconnect / switch-back backoff
bookkeeping.  Hardware and network effects (modem AT commands, socket
reads, WiFi association) are represented by explicit oracle inputs; all
state that the firmware itself stores and branches on is carried in
explicit records and threaded through the step functions, each translated
directly from the corresponding C++ function.
-/

namespace Greenhouse

/-- Network preference policy of the facade (NetworkFacade.h). -/
inductive NetworkPreference
  | WIFI_ONLY
  | GPRS_ONLY
  | WIFI_PREFERRED
  | GPRS_PREFERRED
deriving DecidableEq

/-- Identifies one of the two concrete transports behind the facade. -/
inductive Iface
  | wifi
  | gprs
deriving DecidableEq

/-- Cellular connection FSM states (DeviceState.h / GPRSManager.cpp). -/
inductive GPRSState
  | GPRS_STATE_DISABLED
  | GPRS_STATE_INIT_START
  | GPRS_STATE_INIT_WAIT_SERIAL
  | GPRS_STATE_INIT_RESET_MODEM
  | GPRS_STATE_INIT_ATTACH_GPRS
  | GPRS_STATE_OPERATIONAL
  | GPRS_STATE_CONNECTION_LOST
  | GPRS_STATE_RECONNECTING
  | GPRS_STATE_ERROR_RESTART_MODEM
  | GPRS_STATE_ERROR_MODEM_FAIL
deriving DecidableEq

/-- HTTP request FSM states of the WiFi transport (WiFiManager). -/
inductive WiFiHttpState
  | IDLE
  | BEGIN_REQUEST
  | SENDING_REQUEST
  | PROCESSING_RESPONSE
  | RETRY_WAIT
  | COMPLETE
  | ERROR
deriving DecidableEq

/-- HTTP request FSM states of the GPRS transport (GPRSManager). -/
inductive GPRSHttpState
  | IDLE
  | CLIENT_CONNECT
  | SENDING_REQUEST
  | HEADERS_RECEIVING
  | BODY_RECEIVING
  | PROCESSING_RESPONSE
  | RETRY_WAIT
  | COMPLETE
  | ERROR
deriving DecidableEq

/-- config.h line 233: initial delay for general connection retries, in ms. -/
def INITIAL_RETRY_DELAY_MS : Nat := 15 * 1000

/-- config.h line 234: maximum delay for exponential backoff connection retries. -/
def MAX_RETRY_DELAY_MS : Nat := 5 * 60 * 1000

/-- config.h line 235: initial delay for switching back to WiFi while on GPRS. -/
def WIFI_RETRY_WHEN_GPRS_MS : Nat := 15 * 60 * 1000

/-- config.h line 236: maximum backoff delay for the WiFi switch-back attempts. -/
def MAX_WIFI_RETRY_WHEN_GPRS_MS : Nat := 60 * 60 * 1000

/-- config.h line 246: maximum time to wait for GPRS network attachment, in ms. -/
def GPRS_ATTACH_TIMEOUT_MS : Nat := 60000

/-- config.h line 254: maximum consecutive modem resets before the critical failure state. -/
def GPRS_MAX_MODEM_RESETS : Nat := 3

/-- config.h line 255: maximum consecutive GPRS network attach failures before modem reset. -/
def GPRS_MAX_ATTACH_FAILURES : Nat := 5

/-- config.h line 279: maximum number of retries for a single HTTP request. -/
def MAX_HTTP_RETRIES : Nat := 3

/-- config.h line 278: delay before retrying a failed HTTP request, in ms. -/
def HTTP_RETRY_DELAY_MS : Nat := 5000

/-- The fields of GPRSManager that drive the cellular connection FSM:
current state, timestamp of the last transition, and the three
retry/failure counters (GPRSManager.h data members). -/
structure GprsFsm where
  state : GPRSState
  lastTransitionTime : Nat
  reconnectAttempt : Nat
  modemResetCount : Nat
  attachFailCount : Nat
deriving DecidableEq

/-- GPRSManager::transitionToState (GPRSManager.cpp lines 105-125): when the
requested state differs from the current one, records the new state, stamps
the transition time with millis(), zeroes the reconnect-attempt counter
unless entering RECONNECTING, and zeroes both the modem-reset and
attach-failure counters on entry to INIT_START.  Identical states are a
no-op. -/
def transitionToState (now : Nat) (newState : GPRSState) (s : GprsFsm) : GprsFsm :=
  if s.state ≠ newState then
    { state := newState
      lastTransitionTime := now
      reconnectAttempt :=
        if newState ≠ GPRSState.GPRS_STATE_RECONNECTING then 0 else s.reconnectAttempt
      modemResetCount :=
        if newState = GPRSState.GPRS_STATE_INIT_START then 0 else s.modemResetCount
      attachFailCount :=
        if newState = GPRSState.GPRS_STATE_INIT_START then 0 else s.attachFailCount }
  else s

/-- Oracle inputs consumed by handleGprsInitAttachGprs: the modem answers to
isNetworkConnected(), isGprsConnected(), whether getRegistrationStatus()
reported a home/roaming registration, and the outcome of gprsConnect(). -/
structure AttachEnv where
  netConn : Bool
  gprsConn : Bool
  regOk : Bool
  gprsConnectOk : Bool

/-- GPRSManager::handleGprsInitAttachGprs (GPRSManager.cpp lines 414-472).
If the modem is already registered and GPRS-attached, the attach-failure
counter is cleared and the FSM moves to OPERATIONAL.  If the modem is not
network-registered and registration is not yet OK, a registration timeout
(elapsed time beyond GPRS_ATTACH_TIMEOUT_MS) increments the attach-failure
counter and escalates to ERROR_RESTART_MODEM only when the counter exceeds
GPRS_MAX_ATTACH_FAILURES strictly; below that it stays in place, resetting
the state timer.  Otherwise gprsConnect() is attempted: success clears the
counter and moves to OPERATIONAL; failure increments the counter and
escalates when it reaches GPRS_MAX_ATTACH_FAILURES (greater-or-equal). -/
def handleGprsInitAttachGprs (now : Nat) (env : AttachEnv) (s : GprsFsm) : GprsFsm :=
  if env.netConn && env.gprsConn then
    transitionToState now GPRSState.GPRS_STATE_OPERATIONAL { s with attachFailCount := 0 }
  else if !env.netConn && !env.regOk then
    if now - s.lastTransitionTime > GPRS_ATTACH_TIMEOUT_MS then
      let c := s.attachFailCount + 1
      if c > GPRS_MAX_ATTACH_FAILURES then
        transitionToState now GPRSState.GPRS_STATE_ERROR_RESTART_MODEM
          { s with attachFailCount := c }
      else
        { s with attachFailCount := c, lastTransitionTime := now }
    else s
  else
    if env.gprsConnectOk then
      transitionToState now GPRSState.GPRS_STATE_OPERATIONAL { s with attachFailCount := 0 }
    else
      let c := s.attachFailCount + 1
      if c ≥ GPRS_MAX_ATTACH_FAILURES then
        transitionToState now GPRSState.GPRS_STATE_ERROR_RESTART_MODEM
          { s with attachFailCount := c }
      else
        { s with attachFailCount := c, lastTransitionTime := now }

/-- Oracle inputs consumed by handleGprsInitResetModem: outcome of the
soft/hard reset, whether a SIM PIN is configured, whether the SIM reported
locked on the first status query, the outcome of simUnlock, and whether the
final getSimStatus() call reported SIM_READY. -/
structure ResetEnv where
  resetOk : Bool
  simPinSet : Bool
  simLocked : Bool
  simUnlockOk : Bool
  simReadyFinal : Bool

/-- GPRSManager::handleGprsInitResetModem (GPRSManager.cpp lines 293-363).
On a successful reset the modem-reset counter is cleared immediately
(line 306); a failed SIM unlock routes back to ERROR_RESTART_MODEM; a SIM
that is still not ready increments the counter and escalates to
ERROR_MODEM_FAIL at GPRS_MAX_MODEM_RESETS, else ERROR_RESTART_MODEM; a
ready SIM proceeds to INIT_ATTACH_GPRS.  A failed reset increments the
counter with the same escalation split. -/
def handleGprsInitResetModem (now : Nat) (env : ResetEnv) (s : GprsFsm) : GprsFsm :=
  if env.resetOk then
    let s1 := { s with modemResetCount := 0 }
    if env.simPinSet && env.simLocked && !env.simUnlockOk then
      transitionToState now GPRSState.GPRS_STATE_ERROR_RESTART_MODEM s1
    else if !env.simReadyFinal then
      let s2 := { s1 with modemResetCount := s1.modemResetCount + 1 }
      if s2.modemResetCount ≥ GPRS_MAX_MODEM_RESETS then
        transitionToState now GPRSState.GPRS_STATE_ERROR_MODEM_FAIL s2
      else
        transitionToState now GPRSState.GPRS_STATE_ERROR_RESTART_MODEM s2
    else
      transitionToState now GPRSState.GPRS_STATE_INIT_ATTACH_GPRS s1
  else
    let s1 := { s with modemResetCount := s.modemResetCount + 1 }
    if s1.modemResetCount ≥ GPRS_MAX_MODEM_RESETS then
      transitionToState now GPRSState.GPRS_STATE_ERROR_MODEM_FAIL s1
    else
      transitionToState now GPRSState.GPRS_STATE_ERROR_RESTART_MODEM s1

/-- Environment of a registration-timeout poll in INIT_ATTACH_GPRS: the
modem is neither network-registered nor GPRS-attached and the registration
status query does not report home/roaming registration. -/
def regTimeoutEnv : AttachEnv := ⟨false, false, false, false⟩

/-- Environment of a failed gprsConnect() attempt in INIT_ATTACH_GPRS: the
modem reports home/roaming registration but the packet-data attach fails. -/
def attachFailEnv : AttachEnv := ⟨false, false, true, false⟩

/-- The FSM freshly arrived in INIT_ATTACH_GPRS with cleared counters. -/
def initAttachStart : GprsFsm :=
  ⟨GPRSState.GPRS_STATE_INIT_ATTACH_GPRS, 0, 0, 0, 0⟩

/-- Runs n consecutive polls of handleGprsInitAttachGprs under the
registration-timeout environment, the polls spaced 70000 ms apart so that
each one is past the 60000 ms GPRS_ATTACH_TIMEOUT_MS window. -/
def runRegTimeouts (n : Nat) : GprsFsm :=
  (List.range n).foldl
    (fun s i => handleGprsInitAttachGprs ((i + 1) * 70000) regTimeoutEnv s)
    initAttachStart

/-- WiFiManager::isRetryableError (WiFiManager.cpp lines 310-330): a
status at or below zero, 408, 429, or any 5xx status is retryable; every
other status is not. -/
def WiFiManager.isRetryableError (httpStatusCode : Int) : Bool :=
  if httpStatusCode ≤ 0 then true
  else if httpStatusCode = 408 then true
  else if httpStatusCode = 429 then true
  else if 500 ≤ httpStatusCode ∧ httpStatusCode ≤ 599 then true
  else false

/-- GPRSManager::isRetryableError (GPRSManager.cpp lines 1087-1108): the
same classification as the WiFi transport, translated from its own copy of
the function. -/
def GPRSManager.isRetryableError (httpStatusCode : Int) : Bool :=
  if httpStatusCode ≤ 0 then true
  else if httpStatusCode = 408 then true
  else if httpStatusCode = 429 then true
  else if 500 ≤ httpStatusCode ∧ httpStatusCode ≤ 599 then true
  else false

/-- Outcome of one PROCESSING_RESPONSE step of the WiFi HTTP FSM: whether
the caller-supplied callback was invoked, the FSM state entered next, and
the status code as it stands after the step. -/
structure WifiProcResult where
  invoked : Bool
  nextState : WiFiHttpState
  statusOut : Int
deriving DecidableEq

/-- Outcome of one PROCESSING_RESPONSE step of the GPRS HTTP FSM. -/
structure GprsProcResult where
  invoked : Bool
  nextState : GPRSHttpState
  statusOut : Int
deriving DecidableEq

/-- The PROCESSING_RESPONSE case of WiFiManager::updateHttpOperations
(WiFiManager.cpp lines 229-254).  Inputs: the stored status code, whether
deserializeJson succeeded on the body, whether a callback was supplied,
and the value the callback returns when invoked.  For a 2xx status with a
callback, a parse failure leaves cbOk false; a parse success invokes the
callback and cbOk is its result; with no callback cbOk is true.  For any
other status the callback is not touched and cbOk stays false.  The FSM
then moves to COMPLETE when cbOk holds and to ERROR otherwise; the status
code is not modified. -/
def WiFiManager.processingResponse (status : Int) (parseOk hasCb cbResult : Bool) :
    WifiProcResult :=
  if 200 ≤ status ∧ status < 300 then
    if hasCb then
      if parseOk then
        { invoked := true
          nextState := if cbResult then WiFiHttpState.COMPLETE else WiFiHttpState.ERROR
          statusOut := status }
      else
        { invoked := false, nextState := WiFiHttpState.ERROR, statusOut := status }
    else
      { invoked := false, nextState := WiFiHttpState.COMPLETE, statusOut := status }
  else
    { invoked := false, nextState := WiFiHttpState.ERROR, statusOut := status }

/-- The PROCESSING_RESPONSE case of GPRSManager::updateHttpOperations
(GPRSManager.cpp lines 989-1026).  The 2xx handling mirrors the WiFi
transport.  For a non-2xx status, when a callback exists, the status is
nonzero and the body parses as JSON, the callback IS invoked (line 1019)
although its return value is discarded and cbOk stays false; the FSM then
moves to ERROR with the status code preserved. -/
def GPRSManager.processingResponse (status : Int) (parseOk hasCb cbResult : Bool) :
    GprsProcResult :=
  if 200 ≤ status ∧ status < 300 then
    if hasCb then
      if parseOk then
        { invoked := true
          nextState := if cbResult then GPRSHttpState.COMPLETE else GPRSHttpState.ERROR
          statusOut := status }
      else
        { invoked := false, nextState := GPRSHttpState.ERROR, statusOut := status }
    else
      { invoked := false, nextState := GPRSHttpState.COMPLETE, statusOut := status }
  else
    if hasCb ∧ status ≠ 0 ∧ parseOk then
      { invoked := true, nextState := GPRSHttpState.ERROR, statusOut := status }
    else
      { invoked := false, nextState := GPRSHttpState.ERROR, statusOut := status }

/-- The request-descriptor and HTTP-FSM fields of WiFiManager
(WiFiManager.h data members) that startAsyncHttpRequest touches. -/
structure WifiHttp where
  asyncActive : Bool
  url : String
  method : String
  apiType : String
  payload : String
  hasCb : Bool
  needsAuth : Bool
  requestStartTime : Nat
  statusCode : Int
  httpRetries : Nat
  httpState : WiFiHttpState
deriving DecidableEq

/-- WiFiManager::startAsyncHttpRequest (WiFiManager.cpp lines 127-160).
A request is rejected, with every stored field untouched, when an async
operation is already active or when WiFi is not connected; otherwise the
request descriptor is stored, the retry counter and status code are
cleared, and the FSM enters BEGIN_REQUEST. -/
def WiFiManager.startAsyncHttpRequest (now : Nat) (connected : Bool)
    (url method apiType payload : String) (hasCb needsAuth : Bool)
    (s : WifiHttp) : Bool × WifiHttp :=
  if s.asyncActive then (false, s)
  else if !connected then (false, s)
  else
    (true,
      { asyncActive := true
        url := url
        method := method
        apiType := apiType
        payload := payload
        hasCb := hasCb
        needsAuth := needsAuth
        requestStartTime := now
        statusCode := 0
        httpRetries := 0
        httpState := WiFiHttpState.BEGIN_REQUEST })

/-- The request-descriptor and HTTP-FSM fields of GPRSManager
(GPRSManager.h data members) that startAsyncHttpRequest touches. -/
structure GprsHttp where
  asyncActive : Bool
  url : String
  method : String
  apiType : String
  payload : String
  hasCb : Bool
  needsAuth : Bool
  requestStartTime : Nat
  host : String
  path : String
  port : Int
  responseBuffer : String
  statusCode : Int
  contentLength : Nat
  chunked : Bool
  bodyBytesRead : Nat
  httpRetries : Nat
  httpState : GPRSHttpState
deriving DecidableEq

/-- Outcome of the C-string URL scan performed inside
GPRSManager::startAsyncHttpRequest: whether the URL holds a protocol
separator, whether host or path exceed their buffers, and the extracted
host, path and port. -/
structure UrlParse where
  hasProtocolSep : Bool
  hostTooLong : Bool
  host : String
  pathPresent : Bool
  pathTooLong : Bool
  path : String
  port : Int

/-- GPRSManager::startAsyncHttpRequest (GPRSManager.cpp lines 612-709).
A request is rejected with the state untouched when an async operation is
already active, when the FSM is not OPERATIONAL, when the URL has no
protocol separator, or when the host is too long; a too-long path rejects
after the host buffer was already written.  An accepted request stores the
descriptor, clears the retry counter and all response bookkeeping, and
enters CLIENT_CONNECT. -/
def GPRSManager.startAsyncHttpRequest (now : Nat) (connected : Bool) (u : UrlParse)
    (url method apiType payload : String) (hasCb needsAuth : Bool)
    (s : GprsHttp) : Bool × GprsHttp :=
  if s.asyncActive then (false, s)
  else if !connected then (false, s)
  else if !u.hasProtocolSep then (false, s)
  else if u.hostTooLong then (false, s)
  else
    let s1 := { s with host := u.host }
    if u.pathPresent && u.pathTooLong then (false, s1)
    else
      let s2 := { s1 with path := if u.pathPresent then u.path else "/" }
      (true,
        { s2 with
          url := url
          method := method
          apiType := apiType
          payload := payload
          hasCb := hasCb
          needsAuth := needsAuth
          requestStartTime := now
          asyncActive := true
          httpRetries := 0
          responseBuffer := ""
          statusCode := 0
          contentLength := 0
          chunked := false
          bodyBytesRead := 0
          port := u.port
          httpState := GPRSHttpState.CLIENT_CONNECT })

/-- The facade-visible state: the configured preference, which managers
exist, the WiFi station status, whether an SSID is configured, the GPRS
manager FSM, the modem-level PDP attach flag (the thing
TinyGsm::gprsDisconnect tears down), and the currently selected active
interface pointer. -/
structure Facade where
  pref : NetworkPreference
  wifiPresent : Bool
  gprsPresent : Bool
  wifiConnected : Bool
  ssidConfigured : Bool
  gprs : GprsFsm
  modemGprsAttached : Bool
  active : Option Iface
deriving DecidableEq

/-- WiFiManager::isConnected (WiFiManager.cpp line 101): WiFi.status ==
WL_CONNECTED, tracked here as the wifiConnected flag. -/
def wifiIsConnected (s : Facade) : Bool := s.wifiConnected

/-- GPRSManager::isConnected (GPRSManager.cpp lines 571-573): true exactly
when the connection FSM state is OPERATIONAL. -/
def gprsIsConnected (s : Facade) : Bool :=
  s.gprs.state = GPRSState.GPRS_STATE_OPERATIONAL

/-- The interface-selection switch of NetworkFacade::determineActiveInterface
(NetworkFacade.cpp lines 81-119), as a pure function of the preference,
the presence of each manager and each manager isConnected() answer.  The
source first computes wifiConnected as (wm && wm->isConnected()) and
gprsConnected as (gm && gm->isConnected()) and then branches exactly as
below. -/
def determineActive (pref : NetworkPreference)
    (wifiPresent gprsPresent wifiConn gprsConn : Bool) : Option Iface :=
  let wifiConnected := wifiPresent && wifiConn
  let gprsConnected := gprsPresent && gprsConn
  match pref with
  | NetworkPreference.WIFI_ONLY =>
      if wifiPresent then some Iface.wifi else none
  | NetworkPreference.GPRS_ONLY =>
      if gprsPresent then some Iface.gprs else none
  | NetworkPreference.WIFI_PREFERRED =>
      if wifiPresent && wifiConnected then some Iface.wifi
      else if gprsPresent && gprsConnected then some Iface.gprs
      else if wifiPresent then some Iface.wifi
      else if gprsPresent then some Iface.gprs
      else none
  | NetworkPreference.GPRS_PREFERRED =>
      if gprsPresent && gprsConnected then some Iface.gprs
      else if wifiPresent && wifiConnected then some Iface.wifi
      else if gprsPresent then some Iface.gprs
      else if wifiPresent then some Iface.wifi
      else none

/-- The selection table as worded in section 4.1 of the specification:
for the ONLY preferences, that transport if present, else none; for
WIFI_PREFERRED, WiFi if connected, else GPRS if connected, else WiFi if
present, else GPRS if present; for GPRS_PREFERRED symmetrically.  This
definition follows the words of the specification, to be compared with
determineActive, which follows the source. -/
def specSection41Table (pref : NetworkPreference)
    (wifiPresent gprsPresent wifiConn gprsConn : Bool) : Option Iface :=
  match pref with
  | NetworkPreference.WIFI_ONLY =>
      if wifiPresent then some Iface.wifi else none
  | NetworkPreference.GPRS_ONLY =>
      if gprsPresent then some Iface.gprs else none
  | NetworkPreference.WIFI_PREFERRED =>
      if wifiPresent && wifiConn then some Iface.wifi
      else if gprsPresent && gprsConn then some Iface.gprs
      else if wifiPresent then some Iface.wifi
      else if gprsPresent then some Iface.gprs
      else none
  | NetworkPreference.GPRS_PREFERRED =>
      if gprsPresent && gprsConn then some Iface.gprs
      else if wifiPresent && wifiConn then some Iface.wifi
      else if gprsPresent then some Iface.gprs
      else if wifiPresent then some Iface.wifi
      else none

/-- NetworkFacade::determineActiveInterface applied to the facade state:
stores the selection outcome in the active-interface field. -/
def determineActiveInterface (s : Facade) : Facade :=
  { s with active :=
      (determineActive s.pref s.wifiPresent s.gprsPresent
        (wifiIsConnected s) (gprsIsConnected s)) }

/-- WiFiManager::connect / connectWiFi (WiFiManager.cpp lines 38-93).
With no SSID configured it fails immediately without touching the radio.
Otherwise the bounded retry loop either associates (ok, the oracle input)
leaving the station connected, or exhausts its attempts having called
WiFi.disconnect, leaving the station disconnected. -/
def WiFiManager.connect (ok : Bool) (s : Facade) : Bool × Facade :=
  if !s.ssidConfigured then (false, s)
  else if ok then (true, { s with wifiConnected := true })
  else (false, { s with wifiConnected := false })

/-- GPRSManager::connect (GPRSManager.cpp lines 80-92): when the FSM is
DISABLED it is started by transitioning to INIT_START; in every case the
function returns true, indicating only that the process has started or is
ongoing — actual connectivity must be read from isConnected(). -/
def GPRSManager.connect (now : Nat) (s : Facade) : Bool × Facade :=
  if s.gprs.state = GPRSState.GPRS_STATE_DISABLED then
    (true, { s with gprs := transitionToState now GPRSState.GPRS_STATE_INIT_START s.gprs })
  else (true, s)

/-- WiFiManager::disconnect (WiFiManager.cpp lines 95-99): turns the WiFi
station off. -/
def WiFiManager.disconnect (s : Facade) : Facade :=
  { s with wifiConnected := false }

/-- GPRSManager::disconnect (GPRSManager.cpp lines 94-101): calls
TinyGsm::gprsDisconnect, tearing down the modem-level PDP attach, and
nothing else — the connection FSM state field is left unchanged. -/
def GPRSManager.disconnect (s : Facade) : Facade :=
  { s with modemGprsAttached := false }

/-- NetworkFacade::isConnected (NetworkFacade.cpp lines 192-210): the
active interface answer when one is set, else the fallback: true when any
present manager reports connected. -/
def NetworkFacade.isConnected (s : Facade) : Bool :=
  match s.active with
  | some Iface.wifi => wifiIsConnected s
  | some Iface.gprs => gprsIsConnected s
  | none =>
      (s.wifiPresent && wifiIsConnected s) || (s.gprsPresent && gprsIsConnected s)

/-- NetworkFacade::connect (NetworkFacade.cpp lines 130-164).  The ok
oracle is the outcome of the WiFi association attempt, should one happen.
WIFI_ONLY / GPRS_ONLY try only that manager; WIFI_PREFERRED tries WiFi
first and on failure disconnects a still-connected WiFi before trying
GPRS; GPRS_PREFERRED symmetrically.  The active interface is re-derived
at the end and the accumulated success flag returned. -/
def NetworkFacade.connect (now : Nat) (ok : Bool) (s : Facade) : Bool × Facade :=
  match s.pref with
  | NetworkPreference.WIFI_ONLY =>
      if s.wifiPresent then
        let r := WiFiManager.connect ok s
        (r.1, determineActiveInterface r.2)
      else (false, determineActiveInterface s)
  | NetworkPreference.GPRS_ONLY =>
      if s.gprsPresent then
        let r := GPRSManager.connect now s
        (r.1, determineActiveInterface r.2)
      else (false, determineActiveInterface s)
  | NetworkPreference.WIFI_PREFERRED =>
      if s.wifiPresent then
        let r := WiFiManager.connect ok s
        if r.1 then (true, determineActiveInterface r.2)
        else if s.gprsPresent then
          let s2 := if s.wifiPresent && wifiIsConnected r.2 then
                      WiFiManager.disconnect r.2 else r.2
          let r2 := GPRSManager.connect now s2
          (r2.1, determineActiveInterface r2.2)
        else (false, determineActiveInterface r.2)
      else if s.gprsPresent then
        let s2 := if s.wifiPresent && wifiIsConnected s then
                    WiFiManager.disconnect s else s
        let r2 := GPRSManager.connect now s2
        (r2.1, determineActiveInterface r2.2)
      else (false, determineActiveInterface s)
  | NetworkPreference.GPRS_PREFERRED =>
      if s.gprsPresent then
        let r := GPRSManager.connect now s
        if r.1 then (true, determineActiveInterface r.2)
        else if s.wifiPresent then
          let s2 := if s.gprsPresent && gprsIsConnected r.2 then
                      GPRSManager.disconnect r.2 else r.2
          let r2 := WiFiManager.connect ok s2
          (r2.1, determineActiveInterface r2.2)
        else (false, determineActiveInterface r.2)
      else if s.wifiPresent then
        let s2 := if s.gprsPresent && gprsIsConnected s then
                    GPRSManager.disconnect s else s
        let r2 := WiFiManager.connect ok s2
        (r2.1, determineActiveInterface r2.2)
      else (false, determineActiveInterface s)

/-- NetworkFacade::disconnect (NetworkFacade.cpp lines 172-184): each
present and connected manager is disconnected, then the active interface
pointer is cleared. -/
def NetworkFacade.disconnect (s : Facade) : Facade :=
  let s1 := if s.wifiPresent && wifiIsConnected s then WiFiManager.disconnect s else s
  let s2 := if s.gprsPresent && gprsIsConnected s1 then GPRSManager.disconnect s1 else s1
  { s2 with active := none }

/-- NetworkFacade::switchToWiFi (NetworkFacade.cpp lines 313-338).  The
third component records whether GPRSManager::disconnect was called.  The
WiFi manager must exist; its connect() is attempted first, and only on
success is a connected GPRS manager disconnected; the active interface is
re-derived in both branches. -/
def NetworkFacade.switchToWiFi (ok : Bool) (s : Facade) : Bool × Facade × Bool :=
  if !s.wifiPresent then (false, s, false)
  else
    let r := WiFiManager.connect ok s
    if r.1 then
      if s.gprsPresent && gprsIsConnected r.2 then
        (true, determineActiveInterface (GPRSManager.disconnect r.2), true)
      else (true, determineActiveInterface r.2, false)
    else (false, determineActiveInterface r.2, false)

/-- NetworkFacade::switchToGPRS (NetworkFacade.cpp lines 346-371).  The
third component records whether WiFiManager::disconnect was called.  The
GPRS manager must exist; its connect() is attempted first, and only on
success is a connected WiFi manager disconnected; the active interface is
re-derived in both branches. -/
def NetworkFacade.switchToGPRS (now : Nat) (s : Facade) : Bool × Facade × Bool :=
  if !s.gprsPresent then (false, s, false)
  else
    let r := GPRSManager.connect now s
    if r.1 then
      if s.wifiPresent && wifiIsConnected r.2 then
        (true, determineActiveInterface (WiFiManager.disconnect r.2), true)
      else (true, determineActiveInterface r.2, false)
    else (false, determineActiveInterface r.2, false)

/-- The DeviceState fields read and written by handleNetworkConnection
(DeviceState.h): the two retry timestamps and the two backoff delays. -/
structure DState where
  lastConnectionRetryTime : Nat
  currentConnectionRetryDelayMs : Nat
  lastWiFiRetryWhenGprsTime : Nat
  currentWiFiSwitchBackoffDelayMs : Nat
deriving DecidableEq

/-- Oracle inputs consumed by handleNetworkConnection: the facade answers
to isConnected() at each of its two checks, the outcome of connect(), the
facts establishing the switch-back precondition (preference is
WIFI_PREFERRED, a WiFi manager exists, the current interface is the GPRS
manager), and the outcome of switchToWiFi(). -/
structure NetEnv where
  facadeConnected : Bool
  connectOk : Bool
  prefWifiPreferred : Bool
  wifiMgrPresent : Bool
  activeIsGprs : Bool
  connectedForSwitch : Bool
  switchOk : Bool

/-- The doubling-with-ceiling update applied to a backoff delay on a
failure: the delay is doubled and clamped to the ceiling, exactly the
two statements d *= 2; if (d > cap) d = cap of the source. -/
def backoffFailStep (cap d : Nat) : Nat :=
  if d * 2 > cap then cap else d * 2

/-- handleNetworkConnection (ESP32GreenhouseController.ino lines 347-388).
First block: when the facade is disconnected and the general retry delay
has elapsed, the retry timestamp is stamped and connect() attempted; on
success the general backoff delay resets to INITIAL_RETRY_DELAY_MS, on
failure it doubles, clamped at MAX_RETRY_DELAY_MS.  Second block: when
running on GPRS under WIFI_PREFERRED with a WiFi manager available, the
facade connected, and the switch-back delay elapsed, switchToWiFi() is
attempted; on success the switch-back backoff resets to
WIFI_RETRY_WHEN_GPRS_MS, on failure it doubles, clamped at
MAX_WIFI_RETRY_WHEN_GPRS_MS. -/
def handleNetworkConnection (now : Nat) (env : NetEnv) (s : DState) : DState :=
  let s1 :=
    if !env.facadeConnected &&
        decide (now - s.lastConnectionRetryTime ≥ s.currentConnectionRetryDelayMs) then
      if env.connectOk then
        { s with lastConnectionRetryTime := now
                 currentConnectionRetryDelayMs := INITIAL_RETRY_DELAY_MS }
      else
        { s with lastConnectionRetryTime := now
                 currentConnectionRetryDelayMs :=
                   (backoffFailStep MAX_RETRY_DELAY_MS s.currentConnectionRetryDelayMs) }
    else s
  if env.prefWifiPreferred && env.wifiMgrPresent && env.activeIsGprs &&
      env.connectedForSwitch &&
      decide (now - s1.lastWiFiRetryWhenGprsTime ≥ s1.currentWiFiSwitchBackoffDelayMs) then
    if env.switchOk then
      { s1 with lastWiFiRetryWhenGprsTime := now
                currentWiFiSwitchBackoffDelayMs := WIFI_RETRY_WHEN_GPRS_MS }
    else
      { s1 with lastWiFiRetryWhenGprsTime := now
                currentWiFiSwitchBackoffDelayMs :=
                  (backoffFailStep MAX_WIFI_RETRY_WHEN_GPRS_MS
                    s1.currentWiFiSwitchBackoffDelayMs) }
  else s1

/-- A facade in GPRS_ONLY mode whose GPRS manager FSM is still DISABLED:
the configuration in which connect() reports success although nothing is
connected yet. -/
def gprsOnlyIdleFacade : Facade :=
  { pref := NetworkPreference.GPRS_ONLY
    wifiPresent := false
    gprsPresent := true
    wifiConnected := false
    ssidConfigured := false
    gprs := ⟨GPRSState.GPRS_STATE_DISABLED, 0, 0, 0, 0⟩
    modemGprsAttached := false
    active := some Iface.gprs }

/-- A facade under WIFI_PREFERRED with both transports present and both
reporting connected, WiFi currently the active interface. -/
def bothConnectedFacade : Facade :=
  { pref := NetworkPreference.WIFI_PREFERRED
    wifiPresent := true
    gprsPresent := true
    wifiConnected := true
    ssidConfigured := true
    gprs := ⟨GPRSState.GPRS_STATE_OPERATIONAL, 0, 0, 0, 0⟩
    modemGprsAttached := true
    active := some Iface.wifi }

/-- A facade whose GPRS FSM is OPERATIONAL, used to exercise disconnect(). -/
def operationalGprsFacade : Facade :=
  { pref := NetworkPreference.GPRS_PREFERRED
    wifiPresent := true
    gprsPresent := true
    wifiConnected := true
    ssidConfigured := true
    gprs := ⟨GPRSState.GPRS_STATE_OPERATIONAL, 400, 0, 1, 2⟩
    modemGprsAttached := true
    active := some Iface.gprs }

/-- A WiFi transport request record with a request already in flight. -/
def wifiBusyRequest : WifiHttp :=
  { asyncActive := true
    url := "http://api.example.test/th"
    method := "GET"
    apiType := "TH_ASYNC_LP"
    payload := ""
    hasCb := true
    needsAuth := true
    requestStartTime := 1000
    statusCode := 0
    httpRetries := 1
    httpState := WiFiHttpState.SENDING_REQUEST }

/-- A GPRS transport request record with a request already in flight. -/
def gprsBusyRequest : GprsHttp :=
  { asyncActive := true
    url := "http://api.example.test/nd"
    method := "GET"
    apiType := "ND_ASYNC_LP"
    payload := ""
    hasCb := true
    needsAuth := true
    requestStartTime := 2000
    host := "api.example.test"
    path := "/nd"
    port := 80
    responseBuffer := ""
    statusCode := 0
    contentLength := 0
    chunked := false
    bodyBytesRead := 0
    httpRetries := 0
    httpState := GPRSHttpState.HEADERS_RECEIVING }

/-- A well-formed URL scan outcome for exercising the GPRS request path. -/
def sampleUrlParse : UrlParse :=
  { hasProtocolSep := true
    hostTooLong := false
    host := "api.example.test"
    pathPresent := true
    pathTooLong := false
    path := "/status"
    port := 80 }

/-- A facade under WIFI_PREFERRED running on its GPRS fallback: the WiFi
station is down, the GPRS FSM is Operational and the active interface
pointer, consistent with that connectivity, is the GPRS manager. -/
def gprsActiveWifiDownFacade : Facade :=
  { pref := NetworkPreference.WIFI_PREFERRED
    wifiPresent := true
    gprsPresent := true
    wifiConnected := false
    ssidConfigured := true
    gprs := ⟨GPRSState.GPRS_STATE_OPERATIONAL, 0, 0, 0, 0⟩
    modemGprsAttached := true
    active := some Iface.gprs }

/-- A main-loop environment in which the reconnect attempt is due and
fails and the switch-back attempt is due and fails. -/
def bothFailNetEnv : NetEnv :=
  { facadeConnected := false
    connectOk := false
    prefWifiPreferred := true
    wifiMgrPresent := true
    activeIsGprs := true
    connectedForSwitch := true
    switchOk := false }

/-- GPRSManager::connect always reports true: it merely starts or pokes
the bring-up FSM (GPRSManager.cpp lines 80-92). -/
theorem GPRSManager.connect_always_true (now : Nat) (s : Facade) :
    (GPRSManager.connect now s).1 = true := by
  unfold GPRSManager.connect
  split <;> rfl

/-- WiFiManager::connect reports true exactly when an SSID is configured
and the association attempt succeeds. -/
theorem WiFiManager.connect_result (ok : Bool) (s : Facade) :
    (WiFiManager.connect ok s).1 = (s.ssidConfigured && ok) := by
  unfold WiFiManager.connect
  cases hs : s.ssidConfigured <;> cases ok <;> simp

/-- Re-deriving the active interface does not change the preference. -/
theorem determineActiveInterface_pref (s : Facade) :
    (determineActiveInterface s).pref = s.pref := rfl

/-- A WiFi connect attempt does not change the stored preference. -/
theorem WiFiManager.connect_wifi_keeps_pref (ok : Bool) (s : Facade) :
    (WiFiManager.connect ok s).2.pref = s.pref := by
  unfold WiFiManager.connect
  split_ifs <;> rfl

/-- A GPRS connect call does not change the stored preference. -/
theorem GPRSManager.connect_gprs_keeps_pref (now : Nat) (s : Facade) :
    (GPRSManager.connect now s).2.pref = s.pref := by
  unfold GPRSManager.connect
  split <;> rfl

/-- C1: for every preference in WIFI_ONLY, GPRS_ONLY, WIFI_PREFERRED,
GPRS_PREFERRED and every combination of availability and connected-status
of the WiFi and GPRS managers, determineActiveInterface selects exactly
the interface given by the section-4.1 table: for the ONLY preferences,
that manager if present else none; for WIFI_PREFERRED, WiFi if connected,
else GPRS if connected, else WiFi if present, else GPRS; for
GPRS_PREFERRED symmetrically. -/
theorem C1_determineActiveInterface_follows_spec_table :
    ∀ (pref : NetworkPreference) (wifiPresent gprsPresent wifiConn gprsConn : Bool),
      determineActive pref wifiPresent gprsPresent wifiConn gprsConn =
        specSection41Table pref wifiPresent gprsPresent wifiConn gprsConn := by
  intro pref wp gp wc gc
  cases pref <;> cases wp <;> cases gp <;> cases wc <;> cases gc <;> rfl

/-- C5: for every integer status code, both transports isRetryableError
functions agree, and they return true exactly when the status is at most
zero, equals 408 or 429, or lies in 500..599; in particular 200, 400,
401, 403 and 404 are not retryable. -/
theorem C5_isRetryableError_classification :
    (∀ status : Int,
        GPRSManager.isRetryableError status = WiFiManager.isRetryableError status ∧
        (WiFiManager.isRetryableError status = true ↔
          status ≤ 0 ∨ status = 408 ∨ status = 429 ∨ (500 ≤ status ∧ status ≤ 599))) ∧
    WiFiManager.isRetryableError 200 = false ∧
    WiFiManager.isRetryableError 400 = false ∧
    WiFiManager.isRetryableError 401 = false ∧
    WiFiManager.isRetryableError 403 = false ∧
    WiFiManager.isRetryableError 404 = false := by
  refine ⟨fun status => ⟨rfl, ?_⟩, by decide, by decide, by decide, by decide, by decide⟩
  unfold WiFiManager.isRetryableError
  split_ifs with h1 h2 h3 h4 <;> simp <;> omega

/-- C2 counterexample: with preference GPRS_ONLY and the GPRS FSM still
DISABLED, NetworkFacade::connect returns true while, when it returns,
neither transport reports connected — refuting the claim that connect()
returns true only if some transport is actually connected. -/
theorem C2_connect_counterexample :
    (NetworkFacade.connect 1000 false gprsOnlyIdleFacade).1 = true ∧
    wifiIsConnected (NetworkFacade.connect 1000 false gprsOnlyIdleFacade).2 = false ∧
    gprsIsConnected (NetworkFacade.connect 1000 false gprsOnlyIdleFacade).2 = false ∧
    NetworkFacade.isConnected (NetworkFacade.connect 1000 false gprsOnlyIdleFacade).2 = false := by
  decide

/-- C2 (amended): NetworkFacade::connect returns true exactly when the
preference-ordered attempt chain reported success, where the GPRS
manager's connect() reports success whenever that manager is present
(it only starts the bring-up FSM); hence the facade can return true while
no transport is connected, and under WIFI_ONLY it can return false while
the untouched GPRS transport is connected. -/
theorem C2_connect_returns_attempt_chain_result :
    ∀ (now : Nat) (ok : Bool) (s : Facade),
      (NetworkFacade.connect now ok s).1 =
        (match s.pref with
         | NetworkPreference.WIFI_ONLY => s.wifiPresent && (s.ssidConfigured && ok)
         | NetworkPreference.GPRS_ONLY => s.gprsPresent
         | NetworkPreference.WIFI_PREFERRED =>
             (s.wifiPresent && (s.ssidConfigured && ok)) || s.gprsPresent
         | NetworkPreference.GPRS_PREFERRED =>
             s.gprsPresent || (s.wifiPresent && (s.ssidConfigured && ok))) := by
  intro now ok s
  obtain ⟨pref, wp, gp, wc, ssid, g, att, act⟩ := s
  cases pref <;> cases wp <;> cases gp <;> cases ssid <;> cases ok <;>
    simp [NetworkFacade.connect, WiFiManager.connect, GPRSManager.connect_always_true,
      wifiIsConnected]

/-- C3 counterexample: after exactly GPRS_MAX_ATTACH_FAILURES = 5
consecutive registration timeouts starting from a fresh INIT_ATTACH_GPRS
state, the FSM is still in INIT_ATTACH_GPRS and not in
ERROR_RESTART_MODEM — the registration-timeout path escalates only when
the counter strictly exceeds the ceiling, so the sixth timeout is needed. -/
theorem C3_regTimeout_counterexample :
    (runRegTimeouts GPRS_MAX_ATTACH_FAILURES).state =
        GPRSState.GPRS_STATE_INIT_ATTACH_GPRS ∧
    (runRegTimeouts GPRS_MAX_ATTACH_FAILURES).state ≠
        GPRSState.GPRS_STATE_ERROR_RESTART_MODEM ∧
    (runRegTimeouts (GPRS_MAX_ATTACH_FAILURES + 1)).state =
        GPRSState.GPRS_STATE_ERROR_RESTART_MODEM := by
  decide

/-- C3 (amended): starting from InitAttach, repeated registration
timeouts reach ErrorRestartModem only after GPRS_MAX_ATTACH_FAILURES + 1
timeouts (the handler escalates on a strict comparison), while up to
GPRS_MAX_ATTACH_FAILURES timeouts the FSM stays in InitAttach with the
counter equal to the number of timeouts; both the registration-timeout
path and the gprsConnect-failure path increment the same shared
attach-failure counter, and the gprsConnect-failure path escalates to
ErrorRestartModem as soon as the incremented counter reaches
GPRS_MAX_ATTACH_FAILURES, staying in InitAttach below that. -/
theorem C3_registration_timeout_escalation :
    ((runRegTimeouts (GPRS_MAX_ATTACH_FAILURES + 1)).state =
        GPRSState.GPRS_STATE_ERROR_RESTART_MODEM) ∧
    (∀ k, k ≤ GPRS_MAX_ATTACH_FAILURES →
      (runRegTimeouts k).state = GPRSState.GPRS_STATE_INIT_ATTACH_GPRS ∧
      (runRegTimeouts k).attachFailCount = k) ∧
    (∀ (t : Nat) (s : GprsFsm),
      t - s.lastTransitionTime > GPRS_ATTACH_TIMEOUT_MS →
      (handleGprsInitAttachGprs t regTimeoutEnv s).attachFailCount =
        s.attachFailCount + 1) ∧
    (∀ (t : Nat) (s : GprsFsm),
      (handleGprsInitAttachGprs t attachFailEnv s).attachFailCount =
        s.attachFailCount + 1) ∧
    (∀ (t : Nat) (s : GprsFsm),
      s.attachFailCount + 1 ≥ GPRS_MAX_ATTACH_FAILURES →
      (handleGprsInitAttachGprs t attachFailEnv s).state =
        GPRSState.GPRS_STATE_ERROR_RESTART_MODEM) ∧
    (∀ (t : Nat) (s : GprsFsm),
      s.state = GPRSState.GPRS_STATE_INIT_ATTACH_GPRS →
      s.attachFailCount + 1 < GPRS_MAX_ATTACH_FAILURES →
      (handleGprsInitAttachGprs t attachFailEnv s).state =
        GPRSState.GPRS_STATE_INIT_ATTACH_GPRS) := by
  refine ⟨by decide, ?_, ?_, ?_, ?_, ?_⟩
  · intro k hk
    have hk5 : k ≤ 5 := hk
    interval_cases k <;> exact ⟨by decide, by decide⟩
  · intro t s ht
    unfold handleGprsInitAttachGprs regTimeoutEnv
    simp only [Bool.false_and, Bool.and_false, Bool.not_false, Bool.and_true,
      Bool.false_eq_true, if_false, if_true, ite_true, ite_false]
    rw [if_pos ht]
    split
    · simp [transitionToState]
      split <;> rfl
    · rfl
  · intro t s
    unfold handleGprsInitAttachGprs attachFailEnv
    simp only [Bool.false_and, Bool.not_false, Bool.not_true, Bool.and_false,
      Bool.false_eq_true, if_false, ite_false, ite_true]
    split
    · simp [transitionToState]
      split <;> rfl
    · rfl
  · intro t s h
    unfold handleGprsInitAttachGprs attachFailEnv
    simp only [Bool.false_and, Bool.not_false, Bool.not_true, Bool.and_false,
      Bool.false_eq_true, if_false, ite_false, ite_true]
    rw [if_pos h]
    simp [transitionToState]
    split <;> simp_all
  · intro t s hstate h
    unfold handleGprsInitAttachGprs attachFailEnv
    simp only [Bool.false_and, Bool.not_false, Bool.not_true, Bool.and_false,
      Bool.false_eq_true, if_false, ite_false, ite_true]
    rw [if_neg (by omega)]
    simpa using hstate

/-- C3 witness: the amended escalation theorem evaluated on concrete
inputs — three timeouts leave the FSM in InitAttach, a single timeout
increments the counter from zero to one, and a gprsConnect failure with
the counter at four escalates to ErrorRestartModem. -/
theorem C3_registration_timeout_escalation_witness :
    (runRegTimeouts 3).state = GPRSState.GPRS_STATE_INIT_ATTACH_GPRS ∧
    (handleGprsInitAttachGprs 70000 regTimeoutEnv initAttachStart).attachFailCount = 0 + 1 ∧
    (handleGprsInitAttachGprs 5 attachFailEnv
        ⟨GPRSState.GPRS_STATE_INIT_ATTACH_GPRS, 0, 0, 0, 4⟩).state =
      GPRSState.GPRS_STATE_ERROR_RESTART_MODEM := by
  refine ⟨(C3_registration_timeout_escalation.2.1 3 (by decide)).1,
    ?_, C3_registration_timeout_escalation.2.2.2.2.1 5
      ⟨GPRSState.GPRS_STATE_INIT_ATTACH_GPRS, 0, 0, 0, 4⟩ (by decide)⟩
  exact C3_registration_timeout_escalation.2.2.1 70000 initAttachStart (by decide)

/-- C4 counterexample: in the GPRS transport's ProcessingResponse step,
a 404 response whose body parses as JSON and a supplied callback DOES
invoke the callback (GPRSManager.cpp line 1019) — refuting the claim
that the callback is never invoked for a status outside 200-299. -/
theorem C4_processingResponse_counterexample :
    (GPRSManager.processingResponse 404 true true true).invoked = true ∧
    (GPRSManager.processingResponse 404 true true true).nextState =
      GPRSHttpState.ERROR := by
  decide

/-- C4 (amended): in the ProcessingResponse step, for status 200-299 both
transports parse the body, count a parse failure as callback failure,
invoke the callback on parse success, and succeed when no callback was
supplied; outside 200-299 the WiFi transport never invokes the callback,
while the GPRS transport invokes it (discarding its result) exactly when
a callback exists, the status is nonzero and the body parses as JSON;
in every non-2xx case both FSMs proceed to error handling with the
numeric status preserved. -/
theorem C4_processingResponse_behavior :
    ∀ (status : Int) (parseOk hasCb cbResult : Bool),
      ((WiFiManager.processingResponse status parseOk hasCb cbResult).invoked = true ↔
        (200 ≤ status ∧ status < 300 ∧ hasCb = true ∧ parseOk = true)) ∧
      ((GPRSManager.processingResponse status parseOk hasCb cbResult).invoked = true ↔
        ((200 ≤ status ∧ status < 300 ∧ hasCb = true ∧ parseOk = true) ∨
         (¬(200 ≤ status ∧ status < 300) ∧ hasCb = true ∧ status ≠ 0 ∧ parseOk = true))) ∧
      (¬(200 ≤ status ∧ status < 300) →
        (WiFiManager.processingResponse status parseOk hasCb cbResult).nextState =
          WiFiHttpState.ERROR ∧
        (GPRSManager.processingResponse status parseOk hasCb cbResult).nextState =
          GPRSHttpState.ERROR) ∧
      (200 ≤ status ∧ status < 300 → hasCb = false →
        (WiFiManager.processingResponse status parseOk hasCb cbResult).nextState =
          WiFiHttpState.COMPLETE ∧
        (GPRSManager.processingResponse status parseOk hasCb cbResult).nextState =
          GPRSHttpState.COMPLETE) ∧
      (200 ≤ status ∧ status < 300 → hasCb = true → parseOk = false →
        (WiFiManager.processingResponse status parseOk hasCb cbResult).nextState =
          WiFiHttpState.ERROR ∧
        (GPRSManager.processingResponse status parseOk hasCb cbResult).nextState =
          GPRSHttpState.ERROR) ∧
      (200 ≤ status ∧ status < 300 → hasCb = true → parseOk = true →
        ((WiFiManager.processingResponse status parseOk hasCb cbResult).nextState =
            WiFiHttpState.COMPLETE ↔ cbResult = true) ∧
        ((GPRSManager.processingResponse status parseOk hasCb cbResult).nextState =
            GPRSHttpState.COMPLETE ↔ cbResult = true)) ∧
      (WiFiManager.processingResponse status parseOk hasCb cbResult).statusOut = status ∧
      (GPRSManager.processingResponse status parseOk hasCb cbResult).statusOut = status := by
  intro status parseOk hasCb cbResult
  unfold WiFiManager.processingResponse GPRSManager.processingResponse
  by_cases h2 : 200 ≤ status ∧ status < 300
  · simp only [if_pos h2]
    cases hasCb <;> cases parseOk <;> cases cbResult <;>
      by_cases h0 : status = 0 <;> simp_all
  · simp only [if_neg h2]
    cases hasCb <;> cases parseOk <;> cases cbResult <;>
      by_cases h0 : status = 0 <;> simp_all

/-- C4 witness: the amended ProcessingResponse theorem applied at a 503
response with a callback and an unparseable body: neither transport
invokes the callback and both move to error handling with the status
intact. -/
theorem C4_processingResponse_behavior_witness :
    ((WiFiManager.processingResponse 503 false true false).nextState =
        WiFiHttpState.ERROR ∧
      (GPRSManager.processingResponse 503 false true false).nextState =
        GPRSHttpState.ERROR) ∧
    (GPRSManager.processingResponse 503 false true false).statusOut = 503 := by
  refine ⟨(C4_processingResponse_behavior 503 false true false).2.2.1 (by decide), ?_⟩
  exact (C4_processingResponse_behavior 503 false true false).2.2.2.2.2.2.2

/-- Iterating the doubling-with-ceiling failure update from a floor no
larger than the ceiling yields exactly the clamped geometric sequence. -/
theorem backoffFailStep_iterate (floor cap : Nat) (hfc : floor ≤ cap) :
    ∀ n, (backoffFailStep cap)^[n] floor = min (floor * 2 ^ n) cap := by
  intro n
  induction n with
  | zero => simpa using Nat.min_eq_left hfc
  | succ n ih =>
      rw [Function.iterate_succ_apply', ih, pow_succ, ← Nat.mul_assoc]
      have hfa : floor ≤ floor * 2 ^ n :=
        Nat.le_mul_of_pos_right floor (Nat.pos_pow_of_pos n (by norm_num))
      obtain ⟨a, ha⟩ : ∃ a, floor * 2 ^ n = a := ⟨_, rfl⟩
      rw [ha] at hfa ⊢
      unfold backoffFailStep
      rw [Nat.min_def, Nat.min_def]
      split_ifs <;> omega

/-- C6: on each due and failed reconnect attempt the general backoff
delay is updated by doubling clamped at MAX_RETRY_DELAY_MS, and resets to
INITIAL_RETRY_DELAY_MS on success; n consecutive failure updates from the
floor give min(floor * 2^n, ceiling) for both backoff schedules; the
switch-back backoff doubles clamped at MAX_WIFI_RETRY_WHEN_GPRS_MS on a
due and failed switch attempt, resets to WIFI_RETRY_WHEN_GPRS_MS exactly
on a successful switch-back, and is untouched whenever no switch-back is
attempted. -/
theorem C6_backoff_doubling_and_reset :
    (∀ (now : Nat) (env : NetEnv) (s : DState),
       env.facadeConnected = false →
       now - s.lastConnectionRetryTime ≥ s.currentConnectionRetryDelayMs →
       (handleNetworkConnection now env s).currentConnectionRetryDelayMs =
         (if env.connectOk then INITIAL_RETRY_DELAY_MS
          else backoffFailStep MAX_RETRY_DELAY_MS s.currentConnectionRetryDelayMs)) ∧
    (∀ n, (backoffFailStep MAX_RETRY_DELAY_MS)^[n] INITIAL_RETRY_DELAY_MS =
       min (INITIAL_RETRY_DELAY_MS * 2 ^ n) MAX_RETRY_DELAY_MS) ∧
    (∀ n, (backoffFailStep MAX_WIFI_RETRY_WHEN_GPRS_MS)^[n] WIFI_RETRY_WHEN_GPRS_MS =
       min (WIFI_RETRY_WHEN_GPRS_MS * 2 ^ n) MAX_WIFI_RETRY_WHEN_GPRS_MS) ∧
    (∀ (now : Nat) (env : NetEnv) (s : DState),
       env.prefWifiPreferred = true → env.wifiMgrPresent = true →
       env.activeIsGprs = true → env.connectedForSwitch = true →
       now - s.lastWiFiRetryWhenGprsTime ≥ s.currentWiFiSwitchBackoffDelayMs →
       (handleNetworkConnection now env s).currentWiFiSwitchBackoffDelayMs =
         (if env.switchOk then WIFI_RETRY_WHEN_GPRS_MS
          else backoffFailStep MAX_WIFI_RETRY_WHEN_GPRS_MS
                 s.currentWiFiSwitchBackoffDelayMs)) ∧
    (∀ (now : Nat) (env : NetEnv) (s : DState),
       (env.prefWifiPreferred && env.wifiMgrPresent && env.activeIsGprs &&
         env.connectedForSwitch) = false →
       (handleNetworkConnection now env s).currentWiFiSwitchBackoffDelayMs =
         s.currentWiFiSwitchBackoffDelayMs) := by
  refine ⟨?_, ?_, ?_, ?_, ?_⟩
  · intro now env s hconn hdue
    unfold handleNetworkConnection
    simp only [hconn, Bool.not_false, Bool.true_and, decide_eq_true_eq]
    rw [if_pos hdue]
    cases hok : env.connectOk <;> simp [hok] <;> split <;> (try split) <;> rfl
  · exact backoffFailStep_iterate INITIAL_RETRY_DELAY_MS MAX_RETRY_DELAY_MS (by decide)
  · exact backoffFailStep_iterate WIFI_RETRY_WHEN_GPRS_MS MAX_WIFI_RETRY_WHEN_GPRS_MS
      (by decide)
  · intro now env s h1 h2 h3 h4 hdue
    unfold handleNetworkConnection
    simp only [h1, h2, h3, h4, Bool.true_and, decide_eq_true_eq]
    split_ifs <;> simp_all
  · intro now env s hng
    unfold handleNetworkConnection
    simp only [hng, Bool.false_and, Bool.false_eq_true, if_false, ite_false]
    split <;> (try split) <;> rfl

/-- C6 witness: the backoff theorem applied at the floors, at a due and
failing environment, and at small iteration counts. -/
theorem C6_backoff_doubling_and_reset_witness :
    (handleNetworkConnection 1000000 bothFailNetEnv
        ⟨0, INITIAL_RETRY_DELAY_MS, 0, WIFI_RETRY_WHEN_GPRS_MS⟩).currentConnectionRetryDelayMs =
      (if bothFailNetEnv.connectOk then INITIAL_RETRY_DELAY_MS
       else backoffFailStep MAX_RETRY_DELAY_MS INITIAL_RETRY_DELAY_MS) ∧
    (backoffFailStep MAX_RETRY_DELAY_MS)^[6] INITIAL_RETRY_DELAY_MS =
      min (INITIAL_RETRY_DELAY_MS * 2 ^ 6) MAX_RETRY_DELAY_MS ∧
    (handleNetworkConnection 4000000 bothFailNetEnv
        ⟨0, INITIAL_RETRY_DELAY_MS, 0, WIFI_RETRY_WHEN_GPRS_MS⟩).currentWiFiSwitchBackoffDelayMs =
      (if bothFailNetEnv.switchOk then WIFI_RETRY_WHEN_GPRS_MS
       else backoffFailStep MAX_WIFI_RETRY_WHEN_GPRS_MS WIFI_RETRY_WHEN_GPRS_MS) := by
  refine ⟨C6_backoff_doubling_and_reset.1 1000000 bothFailNetEnv
      ⟨0, INITIAL_RETRY_DELAY_MS, 0, WIFI_RETRY_WHEN_GPRS_MS⟩ rfl (by decide),
    C6_backoff_doubling_and_reset.2.1 6,
    C6_backoff_doubling_and_reset.2.2.2.1 4000000 bothFailNetEnv
      ⟨0, INITIAL_RETRY_DELAY_MS, 0, WIFI_RETRY_WHEN_GPRS_MS⟩ rfl rfl rfl rfl (by decide)⟩

/-- C7 counterexample: under WIFI_PREFERRED with both transports
connected and WiFi the active interface, a failed switchToWiFi (the
failed reconnect leaves the WiFi station disconnected) re-derives the
active interface to GPRS — refuting the claim that on failure the
previously active interface always remains active.  No disconnect of the
other transport happens and the preference is untouched. -/
theorem C7_switch_counterexample :
    (NetworkFacade.switchToWiFi false bothConnectedFacade).1 = false ∧
    (NetworkFacade.switchToWiFi false bothConnectedFacade).2.2 = false ∧
    bothConnectedFacade.active = some Iface.wifi ∧
    (NetworkFacade.switchToWiFi false bothConnectedFacade).2.1.active =
      some Iface.gprs := by
  decide

/-- C7 (amended): switchToWiFi and switchToGPRS connect the target first
and disconnect the other transport only after the target's connect()
reported success; when the target manager is absent the state is returned
untouched; when the target's connect() fails the other transport is never
disconnected (the GPRS FSM and modem attach are untouched) and the stored
preference is unchanged in every outcome.  On failure the active
interface is not left untouched but re-derived from the post-attempt
connectivity; consequently the previously active interface remains active
exactly under two preconditions: the active pointer agreed with the
current connectivity before the call (as it does after every
determineActiveInterface re-derivation) and the target (WiFi) was not
connected before the call — a stale active pointer, or a failed reconnect
of an already-connected-and-active target, can hand the active role to
the other transport.  switchToGPRS reports success whenever the GPRS
manager is present, since GPRSManager::connect always reports true. -/
theorem C7_switch_connects_target_first :
    (∀ (ok : Bool) (s : Facade), s.wifiPresent = false →
       NetworkFacade.switchToWiFi ok s = (false, s, false)) ∧
    (∀ (ok : Bool) (s : Facade),
       (NetworkFacade.switchToWiFi ok s).2.2 = true →
       (NetworkFacade.switchToWiFi ok s).1 = true) ∧
    (∀ (ok : Bool) (s : Facade),
       (NetworkFacade.switchToWiFi ok s).1 = false →
       (NetworkFacade.switchToWiFi ok s).2.2 = false ∧
       (NetworkFacade.switchToWiFi ok s).2.1.pref = s.pref ∧
       (NetworkFacade.switchToWiFi ok s).2.1.gprs = s.gprs ∧
       (NetworkFacade.switchToWiFi ok s).2.1.modemGprsAttached = s.modemGprsAttached) ∧
    (∀ (ok : Bool) (s : Facade),
       (NetworkFacade.switchToWiFi ok s).1 = false →
       s.wifiConnected = false →
       s.active = (determineActiveInterface s).active →
       (NetworkFacade.switchToWiFi ok s).2.1.active = s.active) ∧
    (∀ (now : Nat) (s : Facade), s.gprsPresent = true →
       (NetworkFacade.switchToGPRS now s).1 = true) ∧
    (∀ (now : Nat) (s : Facade), s.gprsPresent = false →
       NetworkFacade.switchToGPRS now s = (false, s, false)) ∧
    (∀ (now : Nat) (s : Facade),
       (NetworkFacade.switchToGPRS now s).2.2 = true →
       (NetworkFacade.switchToGPRS now s).1 = true) ∧
    (∀ (ok : Bool) (s : Facade),
       (NetworkFacade.switchToWiFi ok s).2.1.pref = s.pref) ∧
    (∀ (now : Nat) (s : Facade),
       (NetworkFacade.switchToGPRS now s).2.1.pref = s.pref) ∧
    (∀ (ok : Bool) (s : Facade), s.wifiPresent = true →
       (NetworkFacade.switchToWiFi ok s).1 = false →
       (NetworkFacade.switchToWiFi ok s).2.1.active =
         (determineActiveInterface (WiFiManager.connect ok s).2).active) := by
  refine ⟨?_, ?_, ?_, ?_, ?_, ?_, ?_, ?_, ?_, ?_⟩
  · intro ok s h
    unfold NetworkFacade.switchToWiFi
    simp [h]
  · intro ok s h2
    unfold NetworkFacade.switchToWiFi at h2 ⊢
    by_cases hwp : (!s.wifiPresent) = true
    · simp [hwp] at h2
    · by_cases hc : (WiFiManager.connect ok s).1 = true
      · rw [if_neg hwp, if_pos hc]
        split <;> rfl
      · rw [if_neg hwp, if_neg hc] at h2
        simp at h2
  · intro ok s h
    unfold NetworkFacade.switchToWiFi at h ⊢
    split_ifs at h ⊢ <;>
      simp_all [WiFiManager.connect, determineActiveInterface,
        wifiIsConnected, gprsIsConnected, GPRSManager.disconnect] <;>
      split_ifs at h ⊢ <;> simp_all
  · intro ok s h hwc hact
    unfold NetworkFacade.switchToWiFi at h ⊢
    split_ifs at h ⊢ <;>
      simp_all [WiFiManager.connect, determineActiveInterface,
        wifiIsConnected, gprsIsConnected, GPRSManager.disconnect] <;>
      split_ifs at h ⊢ <;> simp_all
  · intro now s h
    unfold NetworkFacade.switchToGPRS
    simp [h, GPRSManager.connect_always_true]
    split <;> simp
  · intro now s h
    unfold NetworkFacade.switchToGPRS
    simp [h]
  · intro now s h2
    unfold NetworkFacade.switchToGPRS at h2 ⊢
    by_cases hgp : (!s.gprsPresent) = true
    · simp [hgp] at h2
    · rw [if_neg hgp, if_pos (GPRSManager.connect_always_true now s)]
      split <;> rfl
  · intro ok s
    unfold NetworkFacade.switchToWiFi
    split
    · rfl
    · dsimp only
      split
      · split <;>
          simp [determineActiveInterface_pref, GPRSManager.disconnect,
            WiFiManager.connect_wifi_keeps_pref]
      · simp [determineActiveInterface_pref, WiFiManager.connect_wifi_keeps_pref]
  · intro now s
    unfold NetworkFacade.switchToGPRS
    split
    · rfl
    · dsimp only
      split
      · split <;>
          simp [determineActiveInterface_pref, WiFiManager.disconnect,
            GPRSManager.connect_gprs_keeps_pref]
      · simp [determineActiveInterface_pref, GPRSManager.connect_gprs_keeps_pref]
  · intro ok s hwp h
    unfold NetworkFacade.switchToWiFi at h ⊢
    rw [if_neg (by simp [hwp])] at h ⊢
    dsimp only at h ⊢
    by_cases hc : (WiFiManager.connect ok s).1 = true
    · rw [if_pos hc] at h
      split at h <;> simp at h
    · rw [if_neg hc]

/-- C7 witness: the amended switch theorem applied at concrete facades —
a missing WiFi manager returns the state untouched; on a facade running
on its GPRS fallback with the WiFi station down and a consistent active
pointer, a failed switchToWiFi leaves the active interface unchanged and
equal to the re-derivation of the post-attempt state; and switchToGPRS
with a present GPRS manager reports success. -/
theorem C7_switch_connects_target_first_witness :
    NetworkFacade.switchToWiFi false gprsOnlyIdleFacade =
      (false, gprsOnlyIdleFacade, false) ∧
    (NetworkFacade.switchToWiFi false gprsActiveWifiDownFacade).2.1.active =
      gprsActiveWifiDownFacade.active ∧
    (NetworkFacade.switchToWiFi false gprsActiveWifiDownFacade).2.1.active =
      (determineActiveInterface
        (WiFiManager.connect false gprsActiveWifiDownFacade).2).active ∧
    (NetworkFacade.switchToGPRS 7 operationalGprsFacade).1 = true := by
  refine ⟨C7_switch_connects_target_first.1 false gprsOnlyIdleFacade rfl,
    C7_switch_connects_target_first.2.2.2.1 false gprsActiveWifiDownFacade
      (by decide) rfl (by decide),
    C7_switch_connects_target_first.2.2.2.2.2.2.2.2.2 false gprsActiveWifiDownFacade
      rfl (by decide),
    C7_switch_connects_target_first.2.2.2.2.1 7 operationalGprsFacade rfl⟩

/-- C8: for each transport, whenever the async-operation-active flag is
set, startAsyncHttpRequest returns false and leaves the entire request
state (URL, method, API label, payload, callback, auth flag, timers,
status code, retry counter and HTTP FSM state) unchanged — a new request
is accepted only when none is in flight. -/
theorem C8_single_inflight_request :
    (∀ (now : Nat) (connected : Bool) (url method apiType payload : String)
        (hasCb needsAuth : Bool) (s : WifiHttp),
      s.asyncActive = true →
      WiFiManager.startAsyncHttpRequest now connected url method apiType payload
        hasCb needsAuth s = (false, s)) ∧
    (∀ (now : Nat) (connected : Bool) (u : UrlParse)
        (url method apiType payload : String) (hasCb needsAuth : Bool) (s : GprsHttp),
      s.asyncActive = true →
      GPRSManager.startAsyncHttpRequest now connected u url method apiType payload
        hasCb needsAuth s = (false, s)) := by
  constructor
  · intro now connected url method apiType payload hasCb needsAuth s h
    unfold WiFiManager.startAsyncHttpRequest
    rw [if_pos h]
  · intro now connected u url method apiType payload hasCb needsAuth s h
    unfold GPRSManager.startAsyncHttpRequest
    rw [if_pos h]

/-- C8 witness: both rejection theorems evaluated at transports with a
request already in flight. -/
theorem C8_single_inflight_request_witness :
    WiFiManager.startAsyncHttpRequest 3000 true "http://api.example.test/st" "GET"
        "DEV_ST_G_LP_ASYNC" "" false true wifiBusyRequest = (false, wifiBusyRequest) ∧
    GPRSManager.startAsyncHttpRequest 3000 true sampleUrlParse
        "http://api.example.test/st" "GET" "DEV_ST_G_LP_ASYNC" "" false true
        gprsBusyRequest = (false, gprsBusyRequest) := by
  exact ⟨C8_single_inflight_request.1 3000 true "http://api.example.test/st" "GET"
      "DEV_ST_G_LP_ASYNC" "" false true wifiBusyRequest rfl,
    C8_single_inflight_request.2 3000 true sampleUrlParse
      "http://api.example.test/st" "GET" "DEV_ST_G_LP_ASYNC" "" false true
      gprsBusyRequest rfl⟩

/-- C9 counterexample: a successful modem reset in the InitResetModem
handler clears the modem-reset counter (2 becomes 0) although the FSM is
entering InitAttach, not InitStart, and no attach succeeded; conversely a
successful attach leaves the modem-reset counter at 2 — refuting the
claim that both retry/failure counters are reset exactly on entry to
InitStart and on successful attach. -/
theorem C9_counter_reset_counterexample :
    (handleGprsInitResetModem 100 ⟨true, false, false, false, true⟩
        ⟨GPRSState.GPRS_STATE_INIT_RESET_MODEM, 0, 0, 2, 3⟩).modemResetCount = 0 ∧
    (handleGprsInitResetModem 100 ⟨true, false, false, false, true⟩
        ⟨GPRSState.GPRS_STATE_INIT_RESET_MODEM, 0, 0, 2, 3⟩).state =
      GPRSState.GPRS_STATE_INIT_ATTACH_GPRS ∧
    (handleGprsInitAttachGprs 100 ⟨true, true, false, false⟩
        ⟨GPRSState.GPRS_STATE_INIT_ATTACH_GPRS, 0, 0, 2, 3⟩).modemResetCount = 2 ∧
    (handleGprsInitAttachGprs 100 ⟨true, true, false, false⟩
        ⟨GPRSState.GPRS_STATE_INIT_ATTACH_GPRS, 0, 0, 2, 3⟩).state =
      GPRSState.GPRS_STATE_OPERATIONAL := by
  decide

/-- C9 (amended): every change of FSM state goes through
transitionToState, which stamps the last-transition timestamp (and is a
no-op on an identical state); both counters are zeroed on entry to
InitStart; a successful attach zeroes the attach-failure counter but
never the modem-reset counter (the attach handler preserves it in every
branch); and additionally a successful modem reset inside the
InitResetModem handler zeroes the modem-reset counter on its way to
InitAttach. -/
theorem C9_transition_timestamps_and_counter_resets :
    (∀ (now : Nat) (ns : GPRSState) (s : GprsFsm), ns ≠ s.state →
       (transitionToState now ns s).lastTransitionTime = now ∧
       (transitionToState now ns s).state = ns) ∧
    (∀ (now : Nat) (ns : GPRSState) (s : GprsFsm), ns = s.state →
       transitionToState now ns s = s) ∧
    (∀ (now : Nat) (s : GprsFsm), s.state ≠ GPRSState.GPRS_STATE_INIT_START →
       (transitionToState now GPRSState.GPRS_STATE_INIT_START s).modemResetCount = 0 ∧
       (transitionToState now GPRSState.GPRS_STATE_INIT_START s).attachFailCount = 0) ∧
    (∀ (now : Nat) (env : AttachEnv) (s : GprsFsm),
       env.netConn = true → env.gprsConn = true →
       (handleGprsInitAttachGprs now env s).attachFailCount = 0) ∧
    (∀ (now : Nat) (env : AttachEnv) (s : GprsFsm),
       env.gprsConnectOk = true → (env.netConn = true ∨ env.regOk = true) →
       (handleGprsInitAttachGprs now env s).attachFailCount = 0) ∧
    (∀ (now : Nat) (env : AttachEnv) (s : GprsFsm),
       (handleGprsInitAttachGprs now env s).modemResetCount = s.modemResetCount) ∧
    (∀ (now : Nat) (env : ResetEnv) (s : GprsFsm),
       env.resetOk = true → env.simReadyFinal = true →
       (env.simPinSet && env.simLocked && !env.simUnlockOk) = false →
       (handleGprsInitResetModem now env s).modemResetCount = 0 ∧
       (handleGprsInitResetModem now env s).state =
         GPRSState.GPRS_STATE_INIT_ATTACH_GPRS) := by
  refine ⟨?_, ?_, ?_, ?_, ?_, ?_, ?_⟩
  · intro now ns s h
    unfold transitionToState
    rw [if_pos (by exact fun hc => h hc.symm)]
    exact ⟨rfl, rfl⟩
  · intro now ns s h
    unfold transitionToState
    rw [if_neg (by simp [h])]
  · intro now s h
    unfold transitionToState
    rw [if_pos h]
    simp
  · intro now env s h1 h2
    unfold handleGprsInitAttachGprs transitionToState
    simp only [h1, h2, Bool.and_self, if_true, ite_true]
    split <;> rfl
  · intro now env s hok hreg
    unfold handleGprsInitAttachGprs
    rcases hn : env.netConn <;> rcases hg : env.gprsConn <;>
      simp_all [transitionToState] <;> split <;> rfl
  · intro now env s
    unfold handleGprsInitAttachGprs transitionToState
    dsimp only
    split_ifs <;> simp_all
  · intro now env s h1 h2 h3
    unfold handleGprsInitResetModem
    simp only [h1, h2, h3, if_true, ite_true, Bool.false_eq_true, if_false,
      ite_false, Bool.not_true, Bool.not_false]
    unfold transitionToState
    split <;> simp_all

/-- C9 witness: the amended theorem evaluated at a concrete transition
into ConnectionLost, a transition into InitStart, a successful attach,
and a successful modem reset. -/
theorem C9_transition_timestamps_and_counter_resets_witness :
    (transitionToState 555 GPRSState.GPRS_STATE_CONNECTION_LOST
        ⟨GPRSState.GPRS_STATE_OPERATIONAL, 10, 0, 1, 2⟩).lastTransitionTime = 555 ∧
    (transitionToState 777 GPRSState.GPRS_STATE_INIT_START
        ⟨GPRSState.GPRS_STATE_DISABLED, 10, 0, 1, 2⟩).modemResetCount = 0 ∧
    (handleGprsInitAttachGprs 100 ⟨true, true, false, false⟩
        ⟨GPRSState.GPRS_STATE_INIT_ATTACH_GPRS, 0, 0, 1, 4⟩).attachFailCount = 0 ∧
    (handleGprsInitResetModem 100 ⟨true, false, false, false, true⟩
        ⟨GPRSState.GPRS_STATE_INIT_RESET_MODEM, 0, 0, 1, 0⟩).state =
      GPRSState.GPRS_STATE_INIT_ATTACH_GPRS := by
  refine ⟨(C9_transition_timestamps_and_counter_resets.1 555
      GPRSState.GPRS_STATE_CONNECTION_LOST
      ⟨GPRSState.GPRS_STATE_OPERATIONAL, 10, 0, 1, 2⟩ (by decide)).1,
    (C9_transition_timestamps_and_counter_resets.2.2.1 777
      ⟨GPRSState.GPRS_STATE_DISABLED, 10, 0, 1, 2⟩ (by decide)).1,
    C9_transition_timestamps_and_counter_resets.2.2.2.1 100 ⟨true, true, false, false⟩
      ⟨GPRSState.GPRS_STATE_INIT_ATTACH_GPRS, 0, 0, 1, 4⟩ rfl rfl,
    (C9_transition_timestamps_and_counter_resets.2.2.2.2.2.2 100
      ⟨true, false, false, false, true⟩
      ⟨GPRSState.GPRS_STATE_INIT_RESET_MODEM, 0, 0, 1, 0⟩ rfl rfl rfl).2⟩

/-- C10: GPRSManager::disconnect leaves the cellular FSM state unchanged;
hence after NetworkFacade::disconnect on a facade whose GPRS FSM is
Operational, GPRSManager::isConnected still answers true and the facade's
isConnected fallback path reports the facade as connected immediately
after the explicit disconnect. -/
theorem C10_disconnect_preserves_fsm_state :
    (∀ s : Facade, (GPRSManager.disconnect s).gprs = s.gprs) ∧
    (∀ s : Facade, s.gprsPresent = true →
       s.gprs.state = GPRSState.GPRS_STATE_OPERATIONAL →
       (NetworkFacade.disconnect s).gprs.state = s.gprs.state ∧
       gprsIsConnected (NetworkFacade.disconnect s) = true ∧
       NetworkFacade.isConnected (NetworkFacade.disconnect s) = true) := by
  constructor
  · intro s
    rfl
  · intro s hgp hop
    unfold NetworkFacade.disconnect NetworkFacade.isConnected
    dsimp only
    split <;> split <;>
      simp_all [GPRSManager.disconnect, WiFiManager.disconnect,
        gprsIsConnected, wifiIsConnected]

/-- C10 witness: the preservation theorem evaluated on a facade whose
GPRS FSM is Operational. -/
theorem C10_disconnect_preserves_fsm_state_witness :
    (NetworkFacade.disconnect operationalGprsFacade).gprs.state =
        operationalGprsFacade.gprs.state ∧
    NetworkFacade.isConnected (NetworkFacade.disconnect operationalGprsFacade) = true := by
  have h := C10_disconnect_preserves_fsm_state.2 operationalGprsFacade rfl rfl
  exact ⟨h.1, h.2.2⟩

end Greenhouse
